import Mathlib

/-!
Shallow embedding of the availability fitness functions of the group-buying
demo repository (`src/fitness_functions.py`, `src/test_github_actions.py`,
`src/run_demo.py`), together with proofs settling the listed claims.

Modelling conventions:
* Python floats (response times, failure probabilities, success rates) are
  modelled as exact rationals `ℚ`; float arithmetic is idealised as exact
  rational arithmetic.
* `time.sleep(d)` followed by measuring elapsed wall time is modelled as
  producing exactly `d`: a simulated request's `response_time` is its base
  response time plus the random jitter.  Wall-clock quantities that have no
  other meaning (the `timestamp` fields, `total_time` and
  `requests_per_second` of the concurrent test) are outside this time model
  and are omitted.
* Randomness (`random.uniform(0, 0.2)`, `random.random()`,
  `random.choice`) is made explicit: every operation that draws randomness
  takes the drawn values as arguments (an oracle indexed by call number).
* Python dicts keyed by service name are modelled as association lists
  `List (String × _)` in insertion order; dict lookup is `List.lookup`.
* The `issues` list of `run_availability_tests` appends formatted strings;
  the formatting of numbers inside those strings is presentation, so issues
  are modelled as a tagged type `Issue` carrying the same payloads in the
  same order.
-/

attribute [local semireducible] Rat.add Rat.sub Rat.mul Rat.inv Rat.ofScientific

/-- One simulated call's outcome (`ServiceHealth` dataclass).  The
`timestamp` field (wall-clock time of creation) is omitted. -/
structure ServiceHealth where
  name : String
  is_healthy : Bool
  response_time : ℚ
  error_message : Option String
deriving DecidableEq, Repr

/-- The randomness drawn by one `MockService.simulate_request` call:
`jitter` is the `random.uniform(0, 0.2)` delay component and `roll` is the
`random.random()` failure draw. -/
structure RandomDraw where
  jitter : ℚ
  roll : ℚ
deriving DecidableEq, Repr

/-- Mutable state of one `MockService`. -/
structure MockService where
  name : String
  base_response_time : ℚ
  failure_rate : ℚ
  is_available : Bool
deriving DecidableEq, Repr

/-- `MockService.simulate_request`: sleep `base_response_time + jitter`,
report that as the response time, and return an unhealthy sample with the
fixed error text when the service is unavailable or the roll falls below
the failure rate, a healthy sample otherwise. -/
def MockService.simulate_request (s : MockService) (r : RandomDraw) : ServiceHealth :=
  let response_time := s.base_response_time + r.jitter
  if s.is_available = false ∨ r.roll < s.failure_rate then
    { name := s.name, is_healthy := false, response_time := response_time,
      error_message := some ("Service " ++ s.name ++ " is unavailable") }
  else
    { name := s.name, is_healthy := true, response_time := response_time,
      error_message := none }

/-- `MockService.set_availability`. -/
def MockService.set_availability (s : MockService) (available : Bool) : MockService :=
  { s with is_available := available }

/-- The `thresholds` dict of `AvailabilityFitnessFunctions`. -/
structure Thresholds where
  max_response_time : ℚ
  max_failure_rate : ℚ
  min_availability_score : Int
deriving DecidableEq, Repr

/-- State of an `AvailabilityFitnessFunctions` instance: the service dict
(as an association list in insertion order) and the thresholds. -/
structure AFF where
  services : List (String × MockService)
  thresholds : Thresholds
deriving DecidableEq, Repr

/-- The seven mock services built in `AvailabilityFitnessFunctions.__init__`,
with their default base response times and failure rates. -/
def defaultServices : List (String × MockService) :=
  [("group_buying_service",
    { name := "group_buying_service", base_response_time := 0.15,
      failure_rate := 0.02, is_available := true }),
   ("order_service",
    { name := "order_service", base_response_time := 0.2,
      failure_rate := 0.03, is_available := true }),
   ("payment_service",
    { name := "payment_service", base_response_time := 0.3,
      failure_rate := 0.05, is_available := true }),
   ("logistics_service",
    { name := "logistics_service", base_response_time := 0.25,
      failure_rate := 0.04, is_available := true }),
   ("notification_service",
    { name := "notification_service", base_response_time := 0.1,
      failure_rate := 0.01, is_available := true }),
   ("database",
    { name := "database", base_response_time := 0.05,
      failure_rate := 0.01, is_available := true }),
   ("cache",
    { name := "cache", base_response_time := 0.02,
      failure_rate := 0.005, is_available := true })]

/-- A freshly constructed `AvailabilityFitnessFunctions()` instance:
default services, `max_response_time = 5.0`, `max_failure_rate = 0.10`,
`min_availability_score = 70`. -/
def AFF.default : AFF :=
  { services := defaultServices,
    thresholds :=
      { max_response_time := 5.0, max_failure_rate := 0.10,
        min_availability_score := 70 } }

/-- `AvailabilityFitnessFunctions.test_service_health`: a name that is not
a key of the service dict yields an unhealthy sample with response time 0
and the "not found" error message; otherwise the named service is asked to
simulate one request. -/
def AFF.test_service_health (a : AFF) (name : String) (r : RandomDraw) : ServiceHealth :=
  match a.services.lookup name with
  | none =>
      { name := name, is_healthy := false, response_time := 0,
        error_message := some ("Service " ++ name ++ " not found") }
  | some s => s.simulate_request r

/-- `AvailabilityFitnessFunctions.test_all_services_health`: iterate the
service dict in order, testing each service's health; the `i`-th call
consumes the `i`-th random draw. -/
def AFF.test_all_services_health (a : AFF) (draws : Nat → RandomDraw) :
    List (String × ServiceHealth) :=
  a.services.enum.map (fun p => (p.2.1, a.test_service_health p.2.1 (draws p.1)))

/-- The fixed ordered list of (step label, service name) pairs of
`test_critical_path_availability`. -/
def critical_path_steps : List (String × String) :=
  [("Create group cart", "group_buying_service"),
   ("Add products to cart", "group_buying_service"),
   ("Check minimum participants", "database"),
   ("Generate consolidated order", "order_service"),
   ("Process group payment", "payment_service"),
   ("Coordinate logistics", "logistics_service"),
   ("Send notifications", "notification_service")]

/-- The per-step samples gathered by `test_critical_path_availability`:
every step is executed and timed (the loop has no early exit); the `i`-th
step consumes the `i`-th random draw. -/
def AFF.critical_path_samples (a : AFF) (draws : Nat → RandomDraw) :
    List ServiceHealth :=
  critical_path_steps.enum.map (fun p => a.test_service_health p.2.2 (draws p.1))

/-- `AvailabilityFitnessFunctions.test_critical_path_availability`: true
iff every step's sample is healthy and the summed response times stay
strictly under the `max_response_time` threshold. -/
def AFF.test_critical_path_availability (a : AFF) (draws : Nat → RandomDraw) : Bool :=
  let samples := a.critical_path_samples draws
  samples.all (fun h => h.is_healthy) &&
    decide (((samples.map (fun h => h.response_time)).sum) < a.thresholds.max_response_time)

/-- The samples gathered by `test_concurrent_availability`: `n` calls, the
`i`-th against the service name `pick i` (modelling `random.choice` over
the dict's keys; any name is allowed here, which strictly contains the
behaviours of the code), consuming the `i`-th random draw. -/
def AFF.concurrent_samples (a : AFF) (pick : Nat → String)
    (draws : Nat → RandomDraw) (n : Nat) : List ServiceHealth :=
  (List.range n).map (fun i => a.test_service_health (pick i) (draws i))

/-- The `success_rate` computed by `test_concurrent_availability`: healthy
samples over requested samples.  (The dict it returns also carries
`total_time` and `requests_per_second`, wall-clock quantities outside the
time model.) -/
def AFF.concurrent_success_rate (a : AFF) (pick : Nat → String)
    (draws : Nat → RandomDraw) (n : Nat) : ℚ :=
  (((a.concurrent_samples pick draws n).filter (fun h => h.is_healthy)).length : ℚ) / n

/-- Python `int()` on a rational value: truncation toward zero. -/
def truncQ (q : ℚ) : Int :=
  if q < 0 then ⌈q⌉ else ⌊q⌋

/-- `AvailabilityFitnessFunctions.calculate_availability_score`: 0 on an
empty mapping; otherwise `max(0, int(base_score - penalty))` where
`base_score = (healthy/total) * 100` and `penalty = (slow/total) * 20`,
`slow` counting samples whose response time strictly exceeds the
`max_response_time` threshold. -/
def AFF.calculate_availability_score (a : AFF)
    (service_healths : List (String × ServiceHealth)) : Int :=
  if service_healths.isEmpty then 0
  else
    let total : ℚ := service_healths.length
    let healthy : ℚ := (service_healths.filter (fun p => p.2.is_healthy)).length
    let base_score : ℚ := healthy / total * 100
    let slow : ℚ :=
      (service_healths.filter
        (fun p => decide (a.thresholds.max_response_time < p.2.response_time))).length
    let penalty : ℚ := slow / total * 20
    max 0 (truncQ (base_score - penalty))

/-- One entry of the `issues` list of `run_availability_tests`.  The code
appends formatted strings; the numeric formatting inside them is
presentation, so each issue is modelled as a tag carrying the same
payloads. -/
inductive Issue where
  | critical_path_not_available : Issue
  | concurrent_success_rate_too_low (success_rate : ℚ) : Issue
  | service_unhealthy (name : String) (error_message : Option String) : Issue
  | service_too_slow (name : String) (response_time : ℚ) : Issue
deriving DecidableEq, Repr

/-- The `AvailabilityResult` dataclass (its wall-clock `timestamp` field
omitted). -/
structure AvailabilityResult where
  overall_score : Int
  is_healthy : Bool
  services : List (String × ServiceHealth)
  critical_path_available : Bool
  issues : List Issue
deriving DecidableEq, Repr

/-- All the randomness one `run_availability_tests` call consumes: draws
for the all-services health sweep, draws for the critical-path walk, and
the service choices and draws of the ten concurrent requests. -/
structure RunOracle where
  health_draws : Nat → RandomDraw
  path_draws : Nat → RandomDraw
  pick : Nat → String
  conc_draws : Nat → RandomDraw

/-- `AvailabilityFitnessFunctions.run_availability_tests`: sweep all
services, walk the critical path, run the default ten concurrent requests,
compute the aggregate score, subtract 30 if the critical path failed and
20 if the concurrent success rate fell below `1 - max_failure_rate`
(recording an issue in each case), record an issue for every unhealthy or
slow service, and declare the system healthy iff the (penalised) score
reaches `min_availability_score`. -/
def AFF.run_availability_tests (a : AFF) (o : RunOracle) : AvailabilityResult :=
  let service_healths := a.test_all_services_health o.health_draws
  let critical_path_available := a.test_critical_path_availability o.path_draws
  let success_rate := a.concurrent_success_rate o.pick o.conc_draws 10
  let score0 := a.calculate_availability_score service_healths
  let score1 := if critical_path_available then score0 else score0 - 30
  let issues1 : List Issue :=
    if critical_path_available then [] else [Issue.critical_path_not_available]
  let rate_low : Bool := decide (success_rate < 1 - a.thresholds.max_failure_rate)
  let score2 := if rate_low then score1 - 20 else score1
  let issues2 := issues1 ++
    (if rate_low then [Issue.concurrent_success_rate_too_low success_rate] else [])
  let service_issues := (service_healths.map (fun p =>
    if p.2.is_healthy = false then [Issue.service_unhealthy p.1 p.2.error_message]
    else if a.thresholds.max_response_time < p.2.response_time then
      [Issue.service_too_slow p.1 p.2.response_time]
    else [])).flatten
  { overall_score := score2,
    is_healthy := decide (a.thresholds.min_availability_score ≤ score2),
    services := service_healths,
    critical_path_available := critical_path_available,
    issues := issues2 ++ service_issues }

/-- `AvailabilityFitnessFunctions.simulate_service_failure`: set the named
service's availability when the name is a key of the dict, do nothing
otherwise. -/
def AFF.simulate_service_failure (a : AFF) (name : String) (available : Bool) : AFF :=
  { a with services := (a.services.map
      (fun p => if p.1 = name then (p.1, p.2.set_availability available) else p)) }

/-- Direct assignment `services[name].base_response_time = v` performed by
the scenario code (the name is always a key of the dict there). -/
def AFF.set_base_response_time (a : AFF) (name : String) (v : ℚ) : AFF :=
  { a with services := (a.services.map
      (fun p => if p.1 = name then (p.1, { p.2 with base_response_time := v }) else p)) }

/-- Direct assignment `services[name].failure_rate = v`. -/
def AFF.set_failure_rate (a : AFF) (name : String) (v : ℚ) : AFF :=
  { a with services := (a.services.map
      (fun p => if p.1 = name then (p.1, { p.2 with failure_rate := v }) else p)) }

/-- The reset `run_scenario_testing` performs at the start of every
iteration (`test_github_actions.py` lines 109-113): every service is made
available and its failure rate is set to 0.001.  Base response times are
not touched. -/
def resetForIteration (a : AFF) : AFF :=
  { a with services := (a.services.map
      (fun p => (p.1, { p.2 with is_available := true, failure_rate := 0.001 }))) }

/-- The scenario-specific mutations `run_scenario_testing` applies after
the per-iteration reset (`test_github_actions.py` lines 115-150).
`healthy_system` and `high_load` mutate nothing. -/
def applyScenarioMutations (scn : String) (a : AFF) : AFF :=
  if scn = "degraded_system" then
    (a.set_base_response_time "payment_service" 2.5).set_base_response_time
      "logistics_service" 2.0
  else if scn = "critical_failure" then
    a.simulate_service_failure "group_buying_service" false
  else if scn = "partial_failure" then
    a.simulate_service_failure "notification_service" false
  else if scn = "stress_test" then
    (((a.set_base_response_time "payment_service" 3.0).set_base_response_time
        "logistics_service" 2.5).set_base_response_time
        "order_service" 2.0).simulate_service_failure "cache" false
  else a

/-- The service configuration in force during one iteration of
`run_scenario_testing` on scenario `scn`, starting from state `a`: the
per-iteration reset followed by the scenario mutations. -/
def scenarioIterationState (scn : String) (a : AFF) : AFF :=
  applyScenarioMutations scn (resetForIteration a)

/-- Modelled from the claim's formula (not from the source): the score it
asserts, `round(100 * healthyCount/total)` minus `20 * (slowCount/total)`,
rounded down after the subtraction and floored at 0; 0 on an empty
mapping. -/
def claimed_availability_score (a : AFF)
    (service_healths : List (String × ServiceHealth)) : Int :=
  if service_healths.isEmpty then 0
  else
    let total : ℚ := service_healths.length
    let healthy : ℚ := (service_healths.filter (fun p => p.2.is_healthy)).length
    let slow : ℚ :=
      (service_healths.filter
        (fun p => decide (a.thresholds.max_response_time < p.2.response_time))).length
    max 0 ⌊(round (100 * (healthy / total)) : ℚ) - 20 * (slow / total)⌋

/-- A fixed random draw: no jitter, and a roll of 1 that never falls below
any failure rate in [0,1]. -/
def unitDraw : RandomDraw :=
  { jitter := 0, roll := 1 }

/-- An oracle that always uses `unitDraw` and always picks the cache
service for concurrent requests. -/
def steadyOracle : RunOracle :=
  { health_draws := fun _ => unitDraw, path_draws := fun _ => unitDraw,
    pick := fun _ => "cache", conc_draws := fun _ => unitDraw }

/-- The default instance after `set_availability(False)` has been called on
all seven services. -/
def allServicesDown : AFF :=
  { AFF.default with services := (AFF.default.services.map
      (fun p => (p.1, p.2.set_availability false))) }

/-- The default instance after `services['payment_service']` has had its
base response time raised above the 5-second threshold. -/
def slowPaymentAFF : AFF :=
  AFF.default.set_base_response_time "payment_service" 6

/-- An `AvailabilityFitnessFunctions` state with the seven default service
names bound to arbitrary `MockService` configurations and the default
thresholds. -/
def mkSevenAFF (g o p l n d c : MockService) : AFF :=
  { services :=
      [("group_buying_service", g), ("order_service", o), ("payment_service", p),
       ("logistics_service", l), ("notification_service", n), ("database", d),
       ("cache", c)],
    thresholds := AFF.default.thresholds }

/-- The health sample mapping used by the repository's own unit test of the
score calculation (`test_availability_score_calculation`): two healthy
services and one unhealthy, none slow. -/
def threeSamples : List (String × ServiceHealth) :=
  [("service1",
    { name := "service1", is_healthy := true, response_time := 0.1,
      error_message := none }),
   ("service2",
    { name := "service2", is_healthy := true, response_time := 0.2,
      error_message := none }),
   ("service3",
    { name := "service3", is_healthy := false, response_time := 0.1,
      error_message := some "Error" })]

/-- A `MockService` on which `set_availability(False)` has been called:
the default group-buying service forced unavailable. -/
def unavailableService : MockService :=
  { name := "group_buying_service", base_response_time := 0.15,
    failure_rate := 0.02, is_available := false }

/-- A forced-unavailable service returns an unhealthy sample on every
request, whatever the random draw. -/
lemma simulate_request_unavailable (s : MockService) (r : RandomDraw)
    (h : s.is_available = false) : (s.simulate_request r).is_healthy = false := by
  simp [MockService.simulate_request, h]

/-- The `is_healthy` field of a run's result is the comparison of its
(penalised) score against the minimum-score threshold. -/
lemma run_is_healthy_decide (a : AFF) (orac : RunOracle) :
    (a.run_availability_tests orac).is_healthy =
      decide (a.thresholds.min_availability_score ≤
        (a.run_availability_tests orac).overall_score) := rfl

/-- The `services` field of a run's result is the all-services health
sweep. -/
lemma run_services_eq (a : AFF) (orac : RunOracle) :
    (a.run_availability_tests orac).services =
      a.test_all_services_health orac.health_draws := rfl

/-- The `critical_path_available` field of a run's result is the
critical-path walk's verdict. -/
lemma run_critical_path_eq (a : AFF) (orac : RunOracle) :
    (a.run_availability_tests orac).critical_path_available =
      a.test_critical_path_availability orac.path_draws := rfl

/-- Any issue produced by the per-service loop of `run_availability_tests`
for a swept sample ends up in the run's issue list. -/
lemma run_service_issue_mem (a : AFF) (orac : RunOracle) (i : Issue)
    (p : String × ServiceHealth)
    (hp : p ∈ a.test_all_services_health orac.health_draws)
    (hi : (if p.2.is_healthy = false then [Issue.service_unhealthy p.1 p.2.error_message]
      else if a.thresholds.max_response_time < p.2.response_time then
        [Issue.service_too_slow p.1 p.2.response_time]
      else []) = [i]) :
    i ∈ (a.run_availability_tests orac).issues := by
  show i ∈ _ ++ _
  refine List.mem_append_right _ ?_
  refine List.mem_flatten.mpr ⟨[i], ?_, List.mem_singleton_self i⟩
  rw [← hi]
  exact List.mem_map_of_mem _ hp

/-- Python `int()` agrees with `⌊·⌋` on nonnegative rationals. -/
lemma truncQ_nonneg_eq_floor {q : ℚ} (h : 0 ≤ q) : truncQ q = ⌊q⌋ := by
  rw [truncQ, if_neg (not_lt.mpr h)]

/-- Under an outer `max 0`, truncation toward zero and flooring agree. -/
lemma max_zero_truncQ_eq_max_zero_floor (q : ℚ) :
    max 0 (truncQ q) = max 0 ⌊q⌋ := by
  rcases lt_or_le q 0 with hq | hq
  · rw [truncQ, if_pos hq, max_eq_left (Int.ceil_le.mpr (by exact_mod_cast hq.le)),
      max_eq_left (Int.floor_nonpos hq.le)]
  · rw [truncQ_nonneg_eq_floor hq]

/-- Truncation toward zero stays below any positive strict rational
bound. -/
lemma truncQ_lt_of_lt {q : ℚ} {m : Int} (hm : 0 < m) (h : q < (m : ℚ)) :
    truncQ q < m := by
  rw [truncQ]
  split
  · next hq => exact lt_of_le_of_lt (Int.ceil_le.mpr (by exact_mod_cast hq.le)) hm
  · exact Int.floor_lt.mpr h

/-- When the critical path failed, the final score of a run is at most the
aggregate score minus the 30-point critical-path penalty (the concurrent
penalty can only lower it further). -/
lemma run_overall_score_le_calc_sub_30 (a : AFF) (orac : RunOracle)
    (hcp : a.test_critical_path_availability orac.path_draws = false) :
    (a.run_availability_tests orac).overall_score ≤
      a.calculate_availability_score (a.test_all_services_health orac.health_draws) - 30 := by
  simp only [AFF.run_availability_tests, hcp, Bool.false_eq_true, if_false]
  split
  all_goals omega

/-- Seven samples of which at most six are healthy score at most 85:
the base score is at most 600/7 and the slow penalty only subtracts. -/
lemma calculate_availability_score_le_85 (a : AFF)
    (hs : List (String × ServiceHealth)) (hlen : hs.length = 7)
    (hhealthy : (hs.filter (fun p => p.2.is_healthy)).length ≤ 6) :
    a.calculate_availability_score hs ≤ 85 := by
  match hs, hlen with
  | x :: xs, hlen =>
  rw [AFF.calculate_availability_score, if_neg (by simp)]
  have hlen7 : ((x :: xs).length : ℚ) = 7 := by exact_mod_cast congrArg Nat.cast hlen
  refine max_le (by norm_num) ?_
  have hlt : (((x :: xs).filter (fun p => p.2.is_healthy)).length : ℚ) /
        ((x :: xs).length : ℚ) * 100 -
      (((x :: xs).filter (fun p =>
          decide (a.thresholds.max_response_time < p.2.response_time))).length : ℚ) /
        ((x :: xs).length : ℚ) * 20 < (86 : Int) := by
    push_cast
    rw [hlen7]
    have hh : (((x :: xs).filter (fun p => p.2.is_healthy)).length : ℚ) ≤ 6 := by
      exact_mod_cast hhealthy
    have hs0 : (0:ℚ) ≤ (((x :: xs).filter (fun p =>
        decide (a.thresholds.max_response_time < p.2.response_time))).length : ℚ) / 7 * 20 := by
      positivity
    have h1 : (((x :: xs).filter (fun p => p.2.is_healthy)).length : ℚ) / 7 * 100 ≤ 600 / 7 := by
      rw [div_mul_eq_mul_div, div_le_div_iff_of_pos_right (by norm_num)]
      linarith
    linarith
  have h86 := truncQ_lt_of_lt (show (0:Int) < 86 by norm_num) hlt
  omega

/-- C10: `calculate_availability_score` applied to an empty mapping
returns 0 (it neither raises a division-by-zero error nor returns 100):
a system with no sampled services is scored as maximally unavailable. -/
theorem calculate_availability_score_empty (a : AFF) :
    a.calculate_availability_score [] = 0 := rfl

/-- C4: for every run of `run_availability_tests`, the `is_healthy` field
of the returned result is true exactly when its `overall_score` field
reaches the configured `min_availability_score` threshold. -/
theorem run_is_healthy_iff_score_ge_threshold (a : AFF) (orac : RunOracle) :
    (a.run_availability_tests orac).is_healthy = true ↔
      a.thresholds.min_availability_score ≤
        (a.run_availability_tests orac).overall_score := by
  rw [run_is_healthy_decide]
  exact decide_eq_true_iff

/-- C5: after `set_availability(False)` every `simulate_request` returns an
unhealthy sample with the fixed error text, whatever the random roll; and
in general a sample is healthy exactly when the service is available and
the uniform draw does not fall below its failure probability. -/
theorem simulate_request_health_characterisation (s : MockService)
    (r rForced : RandomDraw) :
    (((s.set_availability false).simulate_request rForced).is_healthy = false ∧
      ((s.set_availability false).simulate_request rForced).error_message =
        some ("Service " ++ s.name ++ " is unavailable")) ∧
      ((s.simulate_request r).is_healthy = true ↔
        (s.is_available = true ∧ ¬ r.roll < s.failure_rate)) := by
  refine ⟨⟨?_, ?_⟩, ?_⟩
  · simp [MockService.simulate_request, MockService.set_availability]
  · simp [MockService.simulate_request, MockService.set_availability]
  · rw [MockService.simulate_request]
    split
    · next hc =>
      simp only [Bool.false_eq_true, false_iff, not_and, not_not]
      intro h1
      rcases hc with hc | hc
      · rw [h1] at hc; simp at hc
      · exact hc
    · next hc =>
      push_neg at hc
      obtain ⟨h1, h2⟩ := hc
      simp [Bool.ne_false_iff.mp h1, not_lt.mpr h2]

/-- C3: every run of `test_critical_path_availability` executes and times
all seven critical-path steps (no early exit, whatever the draws make of
earlier steps), and it returns true exactly when every step's sample is
healthy and the summed response times stay under the max-response-time
budget. -/
theorem critical_path_runs_all_steps_and_iff (a : AFF) (draws : Nat → RandomDraw) :
    (a.critical_path_samples draws).length = 7 ∧
      (a.test_critical_path_availability draws = true ↔
        ((∀ h ∈ a.critical_path_samples draws, h.is_healthy = true) ∧
          ((a.critical_path_samples draws).map (fun h => h.response_time)).sum <
            a.thresholds.max_response_time)) := by
  constructor
  · rfl
  · simp [AFF.test_critical_path_availability, List.all_eq_true]

/-- C8: for positive `n`, `test_concurrent_availability` gathers exactly
`n` sample results and its success rate is the number of healthy samples
divided by `n`, hence lies in [0, 1]. -/
theorem concurrent_availability_count_and_rate (a : AFF) (pick : Nat → String)
    (draws : Nat → RandomDraw) (n : Nat) (hn : 0 < n) :
    (a.concurrent_samples pick draws n).length = n ∧
      a.concurrent_success_rate pick draws n =
        (((a.concurrent_samples pick draws n).filter
            (fun h => h.is_healthy)).length : ℚ) / n ∧
      0 ≤ a.concurrent_success_rate pick draws n ∧
      a.concurrent_success_rate pick draws n ≤ 1 := by
  have hlen : (a.concurrent_samples pick draws n).length = n := by
    simp [AFF.concurrent_samples]
  refine ⟨hlen, rfl, ?_, ?_⟩
  · rw [AFF.concurrent_success_rate]; positivity
  · rw [AFF.concurrent_success_rate]
    rw [div_le_one (by exact_mod_cast hn)]
    exact_mod_cast (List.length_filter_le _ _).trans hlen.le

/-- C8 witness: the bundle above instantiated at the default instance,
three requests against the cache, and fixed draws. -/
theorem concurrent_availability_count_and_rate_witness :
    (AFF.default.concurrent_samples (fun _ => "cache") (fun _ => unitDraw) 3).length = 3 ∧
      AFF.default.concurrent_success_rate (fun _ => "cache") (fun _ => unitDraw) 3 =
        (((AFF.default.concurrent_samples (fun _ => "cache") (fun _ => unitDraw) 3).filter
            (fun h => h.is_healthy)).length : ℚ) / 3 ∧
      0 ≤ AFF.default.concurrent_success_rate (fun _ => "cache") (fun _ => unitDraw) 3 ∧
      AFF.default.concurrent_success_rate (fun _ => "cache") (fun _ => unitDraw) 3 ≤ 1 :=
  concurrent_availability_count_and_rate AFF.default (fun _ => "cache")
    (fun _ => unitDraw) 3 (by decide)

/-- C1: with all seven services forced unavailable, `run_availability_tests`
returns an overall score of -50 — the 30-point critical-path penalty and
the 20-point concurrent penalty are subtracted after the aggregate score
was clamped at 0 and the result is never re-clamped, so the advertised
[0, 100] range (asserted by the repository's own
`test_full_availability_test_run`) is violated. -/
theorem run_overall_score_negative_all_services_down :
    (allServicesDown.run_availability_tests steadyOracle).overall_score = -50 ∧
      (allServicesDown.run_availability_tests steadyOracle).overall_score < 0 := by
  constructor <;> decide

/-- C2 counterexample: on the repository's own three-sample fixture (two
of three healthy, none slow) the code returns `int((2/3)*100) = 66`,
whereas the claimed formula `round(100 * 2/3) - 0`, rounded down after the
subtraction, gives 67: the code does not round the base score before
subtracting the penalty. -/
theorem calculate_availability_score_round_counterexample :
    AFF.default.calculate_availability_score threeSamples = 66 ∧
      claimed_availability_score AFF.default threeSamples = 67 := by
  constructor <;> decide

/-- C2 amended: on a non-empty mapping `calculate_availability_score`
returns `(100·healthyCount - 20·slowCount)/total`, truncated after the
subtraction (the base score is not rounded first) and floored at 0; in
particular all samples healthy and none slow yields exactly 100. -/
theorem calculate_availability_score_trunc_form (a : AFF)
    (hs : List (String × ServiceHealth)) (hne : hs ≠ []) :
    a.calculate_availability_score hs =
        max 0 ⌊(100 * ((hs.filter (fun p => p.2.is_healthy)).length : ℚ) -
            20 * ((hs.filter (fun p =>
              decide (a.thresholds.max_response_time < p.2.response_time))).length : ℚ)) /
          (hs.length : ℚ)⌋ ∧
      ((∀ p ∈ hs, p.2.is_healthy = true ∧
          p.2.response_time ≤ a.thresholds.max_response_time) →
        a.calculate_availability_score hs = 100) := by
  have ht : (hs.length : ℚ) ≠ 0 := by
    have := List.length_pos.mpr hne
    positivity
  have hmain : a.calculate_availability_score hs =
      max 0 ⌊(100 * ((hs.filter (fun p => p.2.is_healthy)).length : ℚ) -
          20 * ((hs.filter (fun p =>
            decide (a.thresholds.max_response_time < p.2.response_time))).length : ℚ)) /
        (hs.length : ℚ)⌋ := by
    rw [AFF.calculate_availability_score,
      if_neg (by simpa [List.isEmpty_iff] using hne)]
    rw [max_zero_truncQ_eq_max_zero_floor]
    congr 2
    field_simp
    ring
  refine ⟨hmain, fun hall => ?_⟩
  have hhe : hs.filter (fun p => p.2.is_healthy) = hs :=
    List.filter_eq_self.mpr (fun p hp => (hall p hp).1)
  have hsl : hs.filter
      (fun p => decide (a.thresholds.max_response_time < p.2.response_time)) = [] := by
    rw [List.filter_eq_nil_iff]
    intro p hp
    simpa using not_lt.mpr (hall p hp).2
  rw [hmain, hhe, hsl]
  have harith : (100 * ((hs.length : ℚ)) -
      20 * ((([] : List (String × ServiceHealth)).length : ℚ))) / (hs.length : ℚ) = 100 := by
    simp
    field_simp
  rw [harith]
  simp

/-- C2 witness: the amended form instantiated at the repository's
three-sample fixture. -/
theorem calculate_availability_score_trunc_form_witness :
    AFF.default.calculate_availability_score threeSamples =
        max 0 ⌊(100 * ((threeSamples.filter (fun p => p.2.is_healthy)).length : ℚ) -
            20 * ((threeSamples.filter (fun p =>
              decide (AFF.default.thresholds.max_response_time < p.2.response_time))).length : ℚ)) /
          (threeSamples.length : ℚ)⌋ ∧
      ((∀ p ∈ threeSamples, p.2.is_healthy = true ∧
          p.2.response_time ≤ AFF.default.thresholds.max_response_time) →
        AFF.default.calculate_availability_score threeSamples = 100) :=
  calculate_availability_score_trunc_form AFF.default threeSamples (by decide)

/-- C7 counterexample: after one `degraded_system` iteration of the
scenario driver, the payment service still has base response time 2.5 at
the start of the next iteration's reset — not its default 0.3: base
latency is never restored by the driver, so consecutive scenario runs are
not independent of order. -/
theorem scenario_driver_no_latency_reset_counterexample :
    ((resetForIteration (scenarioIterationState "degraded_system" AFF.default)).services.lookup
        "payment_service").map MockService.base_response_time = some 2.5 ∧
      (AFF.default.services.lookup "payment_service").map MockService.base_response_time =
        some 0.3 ∧
      (2.5 : ℚ) ≠ 0.3 := by
  refine ⟨by decide, by decide, by decide⟩

/-- C7 amended: before each scenario iteration the driver sets every
service's availability to true and its failure rate to 0.001 (not the
service's default failure rate), while leaving its base response time
exactly as the previous scenario left it. -/
theorem reset_for_iteration_fields (a : AFF) (p : String × MockService)
    (hp : p ∈ (resetForIteration a).services) :
    p.2.is_available = true ∧ p.2.failure_rate = 0.001 ∧
      ∃ q ∈ a.services, q.1 = p.1 ∧ q.2.base_response_time = p.2.base_response_time := by
  rw [resetForIteration] at hp
  simp only [List.mem_map] at hp
  obtain ⟨q, hq, rfl⟩ := hp
  exact ⟨rfl, rfl, q, hq, rfl, rfl⟩

/-- C7 witness: the amended reset property instantiated at the default
instance's first service. -/
theorem reset_for_iteration_fields_witness :
    (("group_buying_service",
        ({ name := "group_buying_service", base_response_time := 0.15,
           failure_rate := 0.001, is_available := true } : MockService)) :
          String × MockService).2.is_available = true ∧
      (("group_buying_service",
        ({ name := "group_buying_service", base_response_time := 0.15,
           failure_rate := 0.001, is_available := true } : MockService)) :
          String × MockService).2.failure_rate = 0.001 ∧
      ∃ q ∈ AFF.default.services, q.1 = "group_buying_service" ∧
        q.2.base_response_time = (0.15 : ℚ) :=
  reset_for_iteration_fields AFF.default _ (by decide)

/-- C9: `test_service_health` is total — a lookup miss yields an unhealthy
sample carrying the "not found" error message — and every error condition
(unhealthy service, slow service, broken critical path) surfaces as an
entry in the issues list of the final result rather than as a fault. -/
theorem errors_reported_as_issues_not_raised :
    (∀ (a : AFF) (name : String) (r : RandomDraw), a.services.lookup name = none →
      a.test_service_health name r =
        { name := name, is_healthy := false, response_time := 0,
          error_message := some ("Service " ++ name ++ " not found") }) ∧
    (∀ (a : AFF) (orac : RunOracle) (p : String × ServiceHealth),
      p ∈ (a.run_availability_tests orac).services → p.2.is_healthy = false →
        Issue.service_unhealthy p.1 p.2.error_message ∈
          (a.run_availability_tests orac).issues) ∧
    (∀ (a : AFF) (orac : RunOracle) (p : String × ServiceHealth),
      p ∈ (a.run_availability_tests orac).services → p.2.is_healthy = true →
        a.thresholds.max_response_time < p.2.response_time →
          Issue.service_too_slow p.1 p.2.response_time ∈
            (a.run_availability_tests orac).issues) ∧
    (∀ (a : AFF) (orac : RunOracle),
      (a.run_availability_tests orac).critical_path_available = false →
        Issue.critical_path_not_available ∈ (a.run_availability_tests orac).issues) := by
  refine ⟨?_, ?_, ?_, ?_⟩
  · intro a name r hmiss
    rw [AFF.test_service_health, hmiss]
  · intro a orac p hp hunh
    rw [run_services_eq] at hp
    exact run_service_issue_mem a orac _ p hp (by rw [if_pos hunh])
  · intro a orac p hp hh hslow
    rw [run_services_eq] at hp
    refine run_service_issue_mem a orac _ p hp ?_
    rw [if_neg (by simp [hh]), if_pos hslow]
  · intro a orac hcp
    rw [run_critical_path_eq] at hcp
    show Issue.critical_path_not_available ∈ _ ++ _
    refine List.mem_append_left _ ?_
    show Issue.critical_path_not_available ∈ _ ++ _
    refine List.mem_append_left _ ?_
    rw [hcp]
    simp

/-- C9 witness: a lookup miss on the default instance, an unhealthy-service
issue and the critical-path issue on the all-services-down instance, and a
slow-service issue on the slow-payment instance. -/
theorem errors_reported_as_issues_not_raised_witness :
    AFF.default.test_service_health "nonexistent_service" unitDraw =
        { name := "nonexistent_service", is_healthy := false, response_time := 0,
          error_message := some ("Service " ++ "nonexistent_service" ++ " not found") } ∧
      Issue.service_unhealthy "group_buying_service"
          (some "Service group_buying_service is unavailable") ∈
        (allServicesDown.run_availability_tests steadyOracle).issues ∧
      Issue.service_too_slow "payment_service" 6 ∈
        (slowPaymentAFF.run_availability_tests steadyOracle).issues ∧
      Issue.critical_path_not_available ∈
        (allServicesDown.run_availability_tests steadyOracle).issues :=
  ⟨errors_reported_as_issues_not_raised.1 AFF.default "nonexistent_service" unitDraw
      (by decide),
   errors_reported_as_issues_not_raised.2.1 allServicesDown steadyOracle
      ("group_buying_service",
        { name := "group_buying_service", is_healthy := false, response_time := 0.15,
          error_message := some "Service group_buying_service is unavailable" })
      (by decide) (by decide),
   errors_reported_as_issues_not_raised.2.2.1 slowPaymentAFF steadyOracle
      ("payment_service",
        { name := "payment_service", is_healthy := true, response_time := 6,
          error_message := none })
      (by decide) (by decide) (by decide),
   errors_reported_as_issues_not_raised.2.2.2 allServicesDown steadyOracle (by decide)⟩

/-- C6: whatever the seven services' configurations and the random draws,
forcing the first critical-path service (the group-buying service)
unavailable makes the run's `critical_path_available` flag false and its
`is_healthy` flag false: at most six of the seven sweep samples can be
healthy, so the aggregate score is at most 85 and cannot survive the
30-point critical-path penalty against the threshold of 70. -/
theorem forced_first_critical_service_down (g o p l n d c : MockService)
    (hg : g.is_available = false) (orac : RunOracle) :
    ((mkSevenAFF g o p l n d c).run_availability_tests orac).critical_path_available = false ∧
      ((mkSevenAFF g o p l n d c).run_availability_tests orac).is_healthy = false := by
  set a := mkSevenAFF g o p l n d c with ha
  have hg0 : ∀ r, (g.simulate_request r).is_healthy = false :=
    fun r => simulate_request_unavailable g r hg
  have hsamp : a.critical_path_samples orac.path_draws =
      g.simulate_request (orac.path_draws 0) ::
        [g.simulate_request (orac.path_draws 1),
         d.simulate_request (orac.path_draws 2),
         o.simulate_request (orac.path_draws 3),
         p.simulate_request (orac.path_draws 4),
         l.simulate_request (orac.path_draws 5),
         n.simulate_request (orac.path_draws 6)] := rfl
  have hcp : a.test_critical_path_availability orac.path_draws = false := by
    simp only [AFF.test_critical_path_availability, hsamp, List.all_cons, hg0,
      Bool.false_and]
  have hhs : a.test_all_services_health orac.health_draws =
      ("group_buying_service", g.simulate_request (orac.health_draws 0)) ::
        [("order_service", o.simulate_request (orac.health_draws 1)),
         ("payment_service", p.simulate_request (orac.health_draws 2)),
         ("logistics_service", l.simulate_request (orac.health_draws 3)),
         ("notification_service", n.simulate_request (orac.health_draws 4)),
         ("database", d.simulate_request (orac.health_draws 5)),
         ("cache", c.simulate_request (orac.health_draws 6))] := rfl
  have hfilter : ((a.test_all_services_health orac.health_draws).filter
      (fun q => q.2.is_healthy)).length ≤ 6 := by
    rw [hhs]
    rw [List.filter_cons, if_neg (by simp [hg0])]
    exact le_trans (List.length_filter_le _ _) (by simp)
  have hscore := calculate_availability_score_le_85 a _ (by simp [hhs]) hfilter
  refine ⟨?_, ?_⟩
  · rw [run_critical_path_eq]
    exact hcp
  · rw [run_is_healthy_decide]
    apply decide_eq_false
    intro hle
    have hbound := run_overall_score_le_calc_sub_30 a orac hcp
    have hmin : a.thresholds.min_availability_score = 70 := rfl
    rw [hmin] at hle
    omega

/-- C6 witness: the property instantiated with every slot holding the
forced-unavailable service and fixed draws. -/
theorem forced_first_critical_service_down_witness :
    ((mkSevenAFF unavailableService unavailableService unavailableService
        unavailableService unavailableService unavailableService
        unavailableService).run_availability_tests steadyOracle).critical_path_available =
      false ∧
      ((mkSevenAFF unavailableService unavailableService unavailableService
          unavailableService unavailableService unavailableService
          unavailableService).run_availability_tests steadyOracle).is_healthy = false :=
  forced_first_critical_service_down unavailableService unavailableService
    unavailableService unavailableService unavailableService unavailableService
    unavailableService (by decide) steadyOracle
